import Mathlib

/-
Verification of the agentic RAG workflow engine of this repository.

The definitions below are a shallow embedding of the Python sources:
  - src/src/graph/rag_graph.py        (nodes, conditional routing, run loop)
  - src/src/graph/state.py            (AgenticRAGState)
  - src/src/agents/query_rewriter.py, needs_more_info.py, source_selector.py,
    answer_generator.py, answer_evaluator.py
  - src/src/retrieval/vector_store.py (format_documents), tools.py, web_search.py
  - src/src/core/message_filter.py    (filter_messages_sliding_window)
  - src/src/core/config.py            (settings)
  - src/src/api/v1/query.py           (process_query)

External collaborators (the LLM, the vector search, the web search) are
modelled as oracles: each pass of the workflow consumes one record of
collaborator outcomes.  An LLM call that raises is an `Except.error`
carrying the exception message; node code that has no try/except around
the call propagates that error, exactly as the Python does.
-/

namespace AgenticRag

/-- Constants from src/src/core/constants.py. -/
def SOURCE_VECTOR_DB : String := "vector_database"

/-- Source label for the tools/API collaborator. -/
def SOURCE_TOOLS_API : String := "tools_api"

/-- Source label for the web search collaborator. -/
def SOURCE_WEB_SEARCH : String := "web_search"

/-- settings.max_iterations from src/src/core/config.py. -/
def settings_max_iterations : Nat := 3

/-- settings.max_context_messages from src/src/core/config.py. -/
def settings_max_context_messages : Nat := 10

/-- Python str.upper(), character by character. -/
def pyUpper (s : String) : String := ⟨s.data.map Char.toUpper⟩

/-- Python str.lower(), character by character. -/
def pyLower (s : String) : String := ⟨s.data.map Char.toLower⟩

/-- Python str.strip(): remove leading and trailing whitespace. -/
def pyStrip (s : String) : String :=
  ⟨((s.data.dropWhile Char.isWhitespace).reverse.dropWhile Char.isWhitespace).reverse⟩

/-- A LangChain message.  Plain strings returned by nodes are coerced by the
add_messages reducer to human messages, so a constructor per role suffices. -/
inductive Message where
  | human (content : String)
  | ai (content : String)
  | system (content : String)
deriving DecidableEq, Repr

/-- AgenticRAGState from src/src/graph/state.py.  Keys that
run_agentic_rag never puts into the initial dict and that no node writes
(max_iterations, error) are Options, read back with the same defaults the
code passes to state.get. -/
structure State where
  original_query : String
  rewritten_query : String
  needs_retrieval : Bool
  selected_source : Option String
  retrieved_context : String
  answer : String
  answer_is_relevant : Bool
  iteration : Nat
  max_iterations : Option Nat
  error : Option String
  messages : List Message
deriving DecidableEq, Repr

/-- state.get of max_iterations with default settings.max_iterations, as in
route_after_evaluation. -/
def effMax (s : State) : Nat := s.max_iterations.getD settings_max_iterations

/-- Python str of a bool, used in f-string message contents. -/
def pyBool : Bool → String
  | true => "True"
  | false => "False"

/-- rewrite_query (src/src/agents/query_rewriter.py): the LLM response
content, stripped.  The LLM call itself is the argument. -/
def rewrite_query (llmContent : String) : String := pyStrip llmContent

/-- check_needs_more_info (src/src/agents/needs_more_info.py): strip and
uppercase the response, return whether it equals YES. -/
def check_needs_more_info (llmContent : String) : Bool :=
  pyUpper (pyStrip llmContent) == "YES"

/-- select_source (src/src/agents/source_selector.py): strip and lowercase
the response; anything outside the three valid sources becomes
vector_database. -/
def select_source (llmContent : String) : String :=
  let selected_source := pyLower (pyStrip llmContent)
  if [SOURCE_VECTOR_DB, SOURCE_TOOLS_API, SOURCE_WEB_SEARCH].contains selected_source
  then selected_source
  else SOURCE_VECTOR_DB

/-- generate_answer (src/src/agents/answer_generator.py): the LLM response
content, stripped.  Which prompt is used (context vs no-context) changes
only the prompt text, not this post-processing. -/
def generate_answer (llmContent : String) : String := pyStrip llmContent

/-- evaluate_answer (src/src/agents/answer_evaluator.py): strip and
uppercase, compare with YES. -/
def evaluate_answer (llmContent : String) : Bool :=
  pyUpper (pyStrip llmContent) == "YES"

/-- A document returned by the vector store; metadata source defaults to
Unknown in format_documents. -/
structure Document where
  page_content : String
  sourceMeta : Option String
deriving DecidableEq, Repr

/-- VectorStoreManager.format_documents (src/src/retrieval/vector_store.py). -/
def format_documents (docs : List Document) : String :=
  if docs = [] then "No relevant documents found."
  else
    String.intercalate "\n\n" <|
      (docs.enum.map fun p =>
        "[Document " ++ toString (p.1 + 1) ++ " - Source: "
          ++ p.2.sourceMeta.getD "Unknown" ++ "]\n" ++ p.2.page_content)

/-- The ordered tool names registered by ToolsManager._register_default_tools
(src/src/retrieval/tools.py). -/
def available_tool_names : List String := ["calculator", "datetime"]

/-- ToolsManager.get_tools_info (src/src/retrieval/tools.py). -/
def get_tools_info : String :=
  "Available tools: " ++ String.intercalate ", " available_tool_names

/-- Collaborator outcomes consumed by one Retrieve step: the vector path
(an exception, or a list of documents) and the web path (an exception, or
the formatted result string). -/
structure RetrieveOracle where
  vectorResult : Except String (List Document)
  webResult : Except String String
deriving Repr

/-- Collaborator outcomes consumed by one full pass of the workflow: one
LLM call per agent, plus the retrieval outcomes. -/
structure PassOracle where
  rewriteResp : Except String String
  needsInfoResp : Except String String
  sourceResp : Except String String
  retrieve : RetrieveOracle
  generateResp : Except String String
  evaluateResp : Except String String
deriving Repr

/-- The LLM decision the evaluator would extract from a pass, if the call
succeeds. -/
def evalDecision (o : PassOracle) : Option Bool :=
  o.evaluateResp.toOption.map evaluate_answer

/-- query_rewriter_node (src/src/graph/rag_graph.py).  The code has no
try/except: an LLM error propagates. -/
def query_rewriter_node (resp : Except String String) (s : State) :
    Except String State :=
  resp.map fun r =>
    let rewritten := rewrite_query r
    { s with
      rewritten_query := rewritten
      messages := s.messages ++ [Message.system ("Query rewritten to: " ++ rewritten)] }

/-- needs_more_info_node (src/src/graph/rag_graph.py). -/
def needs_more_info_node (resp : Except String String) (s : State) :
    Except String State :=
  resp.map fun r =>
    let needs_info := check_needs_more_info r
    { s with
      needs_retrieval := needs_info
      messages := s.messages ++ [Message.human ("Needs retrieval: " ++ pyBool needs_info)] }

/-- source_selector_node (src/src/graph/rag_graph.py). -/
def source_selector_node (resp : Except String String) (s : State) :
    Except String State :=
  resp.map fun r =>
    let source := select_source r
    { s with
      selected_source := some source
      messages := s.messages ++ [Message.human ("Selected source: " ++ source)] }

/-- The context string computed inside the try/except of retriever_node:
dispatch on the selected source; an exception from the vector or web
collaborator becomes an explanatory string. -/
def retrieval_context (ro : RetrieveOracle) (source : Option String) : String :=
  if source = some SOURCE_VECTOR_DB then
    match ro.vectorResult with
    | Except.ok docs => format_documents docs
    | Except.error e => "Error during retrieval: " ++ e
  else if source = some SOURCE_TOOLS_API then
    get_tools_info
  else if source = some SOURCE_WEB_SEARCH then
    match ro.webResult with
    | Except.ok result => result
    | Except.error e => "Error during retrieval: " ++ e
  else ""

/-- Python rendering of the selected source inside an f-string. -/
def sourceText : Option String → String
  | some src => src
  | none => "None"

/-- retriever_node (src/src/graph/rag_graph.py).  All collaborator failures
are caught, so the node is total. -/
def retriever_node (ro : RetrieveOracle) (s : State) : State :=
  let context := retrieval_context ro s.selected_source
  { s with
    retrieved_context := context
    messages := s.messages ++
      [Message.human ("Retrieved context from " ++ sourceText s.selected_source)] }

/-- answer_generator_node (src/src/graph/rag_graph.py).  No try/except: an
LLM error propagates.  The sliding-window filtering it performs affects only
what would be sent to the LLM, not the state update. -/
def answer_generator_node (resp : Except String String) (s : State) :
    Except String State :=
  resp.map fun r =>
    let answer := generate_answer r
    { s with
      answer := answer
      messages := s.messages ++ [Message.ai answer] }

/-- answer_evaluator_node (src/src/graph/rag_graph.py).  No try/except: an
LLM error propagates.  Increments the iteration counter. -/
def answer_evaluator_node (resp : Except String String) (s : State) :
    Except String State :=
  resp.map fun r =>
    let is_relevant := evaluate_answer r
    let current_iteration := s.iteration + 1
    { s with
      answer_is_relevant := is_relevant
      iteration := current_iteration
      messages := s.messages ++
        [Message.human ("Answer is relevant: " ++ pyBool is_relevant
          ++ " (Iteration: " ++ toString current_iteration ++ ")")] }

/-- route_after_needs_info (src/src/graph/rag_graph.py). -/
def route_after_needs_info (s : State) : String :=
  if s.needs_retrieval then "source_selector" else "answer_generator"

/-- route_after_evaluation (src/src/graph/rag_graph.py). -/
def route_after_evaluation (s : State) : String :=
  let is_relevant := s.answer_is_relevant
  let iteration := s.iteration
  let max_iterations := effMax s
  if is_relevant then "end"
  else if iteration ≥ max_iterations then "end"
  else "query_rewriter"

/-- The state reaching answer_generator on one pass: QueryRewrite, then
NeedsInfoCheck, then (only when route_after_needs_info picks the
source_selector branch) SourceSelect and Retrieve, per the graph edges in
create_agentic_rag_graph. -/
def pre_generate_state (o : PassOracle) (s : State) : Except String State := do
  let s1 ← query_rewriter_node o.rewriteResp s
  let s2 ← needs_more_info_node o.needsInfoResp s1
  if route_after_needs_info s2 = "source_selector" then
    let s3 ← source_selector_node o.sourceResp s2
    pure (retriever_node o.retrieve s3)
  else
    pure s2

/-- One full pass of the graph, from query_rewriter through
answer_evaluator, per the edges in create_agentic_rag_graph. -/
def runPass (o : PassOracle) (s : State) : Except String State := do
  let s3 ← pre_generate_state o s
  let s4 ← answer_generator_node o.generateResp s3
  answer_evaluator_node o.evaluateResp s4

/-- The workflow loop: run a pass, stop when route_after_evaluation says
end, otherwise retry from query_rewriter.  The fuel argument is an upper
bound on the number of remaining passes; the termination theorem shows the
route has already forced end whenever the fuel runs out. -/
def runLoop (oracle : Nat → PassOracle) : Nat → State → Except String State
  | 0, s => Except.ok s
  | Nat.succ fuel, s => do
    let sNext ← runPass (oracle s.iteration) s
    if route_after_evaluation sNext = "end" then pure sNext
    else runLoop oracle fuel sNext

/-- The initial state dict built by run_agentic_rag
(src/src/graph/rag_graph.py): max_iterations and error are not set. -/
def initial_state (query : String) : State where
  original_query := query
  rewritten_query := ""
  needs_retrieval := false
  selected_source := none
  retrieved_context := ""
  answer := ""
  answer_is_relevant := false
  iteration := 0
  max_iterations := none
  error := none
  messages := [Message.human query]

/-- run_agentic_rag (src/src/graph/rag_graph.py): invoke the graph on the
initial state.  effMax of the initial state passes of fuel always suffice,
as proved below. -/
def run_agentic_rag (oracle : Nat → PassOracle) (query : String) :
    Except String State :=
  let initial := initial_state query
  runLoop oracle (effMax initial) initial

/-- The QueryResponse schema fields filled in by process_query
(src/src/api/v1/query.py). -/
structure QueryResponse where
  answer : String
  thread_id : String
  query : String
  rewritten_query : Option String
  needs_retrieval : Bool
  selected_source : Option String
  answer_is_relevant : Bool
  iteration : Nat
  message_count : Nat
deriving DecidableEq, Repr

/-- What the API caller receives: a response body, or an HTTP error. -/
inductive ApiResult where
  | response (r : QueryResponse)
  | httpError (statusCode : Nat) (detail : String)
deriving DecidableEq, Repr

/-- process_query (src/src/api/v1/query.py): run the workflow; any
exception is caught and re-raised as HTTPException 500 with the message in
the detail. -/
def process_query (oracle : Nat → PassOracle) (query threadId : String) :
    ApiResult :=
  match run_agentic_rag oracle query with
  | Except.ok result =>
    ApiResult.response
      { answer := result.answer
        thread_id := threadId
        query := result.original_query
        rewritten_query := some result.rewritten_query
        needs_retrieval := result.needs_retrieval
        selected_source := result.selected_source
        answer_is_relevant := result.answer_is_relevant
        iteration := result.iteration
        message_count := result.messages.length }
  | Except.error e =>
    ApiResult.httpError 500 ("Failed to process query: " ++ e)

/-- Python slice l[-k:]: for k = 0 the slice is the whole list, otherwise
the last k elements. -/
def pyTakeLast (l : List Message) (k : Nat) : List Message :=
  if k = 0 then l else l.drop (l.length - k)

/-- filter_messages_sliding_window (src/src/core/message_filter.py). -/
def filter_messages_sliding_window (messages : List Message)
    (max_messages : Option Nat := none) : List Message :=
  if messages = [] then messages
  else
    let maxM := max_messages.getD settings_max_context_messages
    if messages.length ≤ maxM then messages
    else pyTakeLast messages maxM

/-- All five LLM calls of a pass succeed (the retrieval outcomes are
unconstrained: the retriever node catches those failures itself). -/
def isOkAll (o : PassOracle) : Prop :=
  (∃ a, o.rewriteResp = Except.ok a) ∧ (∃ b, o.needsInfoResp = Except.ok b) ∧
  (∃ c, o.sourceResp = Except.ok c) ∧ (∃ d, o.generateResp = Except.ok d) ∧
  (∃ e, o.evaluateResp = Except.ok e)

/-- A run result is done: either it aborted with an exception, or the
routing function has decided end on its final state. -/
def isDone : Except String State → Prop
  | Except.error _ => True
  | Except.ok st => route_after_evaluation st = "end"

/-- A retrieval oracle with no documents and an empty web result. -/
def emptyRetrieve : RetrieveOracle where
  vectorResult := Except.ok []
  webResult := Except.ok ""

/-- A pass whose five LLM calls succeed with the given contents. -/
def okPass (a b c d e : String) (ro : RetrieveOracle := emptyRetrieve) : PassOracle where
  rewriteResp := Except.ok a
  needsInfoResp := Except.ok b
  sourceResp := Except.ok c
  retrieve := ro
  generateResp := Except.ok d
  evaluateResp := Except.ok e

/-- Collaborator behavior where the evaluator always accepts. -/
def oracleAllYes : Nat → PassOracle := fun _ => okPass "rewritten" "YES" "typo" "an answer" "YES"

/-- Collaborator behavior where the evaluator never accepts. -/
def oracleAlwaysNo : Nat → PassOracle := fun _ => okPass "rewritten" "NO" "" "an answer" "NO"

/-- Collaborator behavior rejecting the first answer and accepting the
second. -/
def oracleSecondYes : Nat → PassOracle := fun n =>
  if n = 0 then okPass "rewritten" "NO" "" "first answer" "NO"
  else okPass "rewritten again" "NO" "" "second answer" "YES"

/-- Collaborator behavior whose query-rewrite LLM call raises. -/
def oracleRewriteFails : Nat → PassOracle := fun _ =>
  { rewriteResp := Except.error "LLM failure"
    needsInfoResp := Except.ok "NO"
    sourceResp := Except.ok ""
    retrieve := emptyRetrieve
    generateResp := Except.ok "an answer"
    evaluateResp := Except.ok "YES" }

/-- Collaborator behavior whose query-rewrite LLM call raises with a
different message. -/
def oracleRewriteDown : Nat → PassOracle := fun _ =>
  { rewriteResp := Except.error "connection reset"
    needsInfoResp := Except.ok "NO"
    sourceResp := Except.ok ""
    retrieve := emptyRetrieve
    generateResp := Except.ok "an answer"
    evaluateResp := Except.ok "YES" }

/-- Collaborator behavior whose generation LLM call raises. -/
def oracleGenerateFails : Nat → PassOracle := fun _ =>
  { rewriteResp := Except.ok "rewritten"
    needsInfoResp := Except.ok "NO"
    sourceResp := Except.ok ""
    retrieve := emptyRetrieve
    generateResp := Except.error "boom"
    evaluateResp := Except.ok "YES" }

/-- Fully successful collaborator behavior used to exhibit a normal run. -/
def oracleAllOk : Nat → PassOracle := fun _ => okPass "rewritten" "NO" "" "4" "YES"

/-- A two-pass behavior: the first pass retrieves from the vector database
and is rejected, the second pass needs no retrieval and is accepted. -/
def oracleStale : Nat → PassOracle := fun n =>
  if n = 0 then okPass "rewritten" "YES" "vector_database" "first answer" "NO"
  else okPass "rewritten again" "NO" "" "second answer" "YES"

/-- A direct-answer behavior for the spec scenario: no retrieval, answer 4,
accepted at once. -/
def oracleDirect : Nat → PassOracle := fun _ => okPass "What is 2 + 2?" "NO" "" "4" "YES"

/-- The state reaching the generator on the second pass of the oracleStale
run: first a full pass, then the pre-generate prefix of the next pass. -/
def stalePreGenerate : Except String State :=
  (runPass (oracleStale 0) (initial_state "What is 2 + 2?")).bind
    (pre_generate_state (oracleStale 1))

/-- The state reaching the generator on the single pass of the
oracleDirect run, extracted from the pre-generate prefix. -/
def directPreState : State :=
  ((pre_generate_state (oracleDirect 0) (initial_state "What is 2 + 2?")).toOption).getD
    (initial_state "What is 2 + 2?")

/-- Inversion for Except.map hitting ok. -/
lemma map_ok {α β : Type} {x : Except String α} {f : α → β} {b : β}
    (h : Except.map f x = Except.ok b) : ∃ a, x = Except.ok a ∧ b = f a := by
  cases x with
  | error e => simp [Except.map] at h
  | ok a => exact ⟨a, rfl, by simpa [Except.map] using h.symm⟩

/-- Inversion for Except bind hitting ok. -/
lemma bindE_ok {α β : Type} {x : Except String α} {f : α → Except String β} {b : β}
    (h : x >>= f = Except.ok b) : ∃ a, x = Except.ok a ∧ f a = Except.ok b := by
  cases x with
  | error e => simp [Bind.bind, Except.bind] at h
  | ok a => exact ⟨a, rfl, by simpa [Bind.bind, Except.bind] using h⟩

/-- The pre-generate prefix of a pass never touches iteration,
max_iterations, error, original_query, answer or answer_is_relevant. -/
lemma pre_generate_state_inv {o : PassOracle} {s st : State}
    (h : pre_generate_state o s = Except.ok st) :
    st.iteration = s.iteration ∧ st.max_iterations = s.max_iterations ∧
    st.error = s.error ∧ st.original_query = s.original_query ∧
    st.answer_is_relevant = s.answer_is_relevant := by
  unfold pre_generate_state at h
  obtain ⟨s1, h1, h⟩ := bindE_ok h
  obtain ⟨a, ha, rfl⟩ := map_ok (x := o.rewriteResp) h1
  obtain ⟨s2, h2, h⟩ := bindE_ok h
  obtain ⟨b, hb, rfl⟩ := map_ok (x := o.needsInfoResp) h2
  split at h
  · obtain ⟨s3, h3, h⟩ := bindE_ok h
    obtain ⟨c, hc, rfl⟩ := map_ok (x := o.sourceResp) h3
    simp only [pure, Except.pure, Except.ok.injEq] at h
    subst h
    simp [retriever_node]
  · simp only [pure, Except.pure, Except.ok.injEq] at h
    subst h
    simp

/-- A pass that returns increments iteration by one, preserves
max_iterations, error and original_query, carries the generated answer,
and its final relevance flag is the decision of the evaluator call. -/
lemma runPass_inv {o : PassOracle} {s st : State}
    (h : runPass o s = Except.ok st) :
    st.iteration = s.iteration + 1 ∧ st.max_iterations = s.max_iterations ∧
    st.error = s.error ∧ st.original_query = s.original_query ∧
    evalDecision o = some st.answer_is_relevant ∧
    (∃ d, o.generateResp = Except.ok d ∧ st.answer = generate_answer d) := by
  unfold runPass at h
  obtain ⟨s3, h3, h⟩ := bindE_ok h
  obtain ⟨s4, h4, h⟩ := bindE_ok h
  obtain ⟨d, hd, rfl⟩ := map_ok (x := o.generateResp) h4
  obtain ⟨e, he, rfl⟩ := map_ok (x := o.evaluateResp) h
  have hp := pre_generate_state_inv h3
  refine ⟨?_, ?_, ?_, ?_, ?_, d, hd, ?_⟩ <;>
    simp [evalDecision, he, Except.toOption, Option.map,
      hp.1, hp.2.1, hp.2.2.1, hp.2.2.2.1]

/-- Congruence of the effective bound under unchanged max_iterations. -/
lemma effMax_congr {s s' : State} (h : s'.max_iterations = s.max_iterations) :
    effMax s' = effMax s := by
  simp [effMax, h]

/-- Once iteration has reached the bound, the route is end. -/
lemma route_end_of_ge {s : State} (h : effMax s ≤ s.iteration) :
    route_after_evaluation s = "end" := by
  unfold route_after_evaluation
  by_cases hr : s.answer_is_relevant <;> simp [hr, h]

/-- A relevant answer routes to end. -/
lemma route_end_of_relevant {s : State} (h : s.answer_is_relevant = true) :
    route_after_evaluation s = "end" := by
  simp [route_after_evaluation, h]

/-- If the route is not end, the answer was rejected and the bound is not
yet reached. -/
lemma route_ne_end {s : State} (h : route_after_evaluation s ≠ "end") :
    s.answer_is_relevant = false ∧ s.iteration < effMax s := by
  unfold route_after_evaluation at h
  by_cases hr : s.answer_is_relevant
  · simp [hr] at h
  · by_cases hi : s.iteration ≥ effMax s
    · simp [hr, hi] at h
    · exact ⟨by simpa using hr, by omega⟩

/-- A rejected answer below the bound routes back to query_rewriter. -/
lemma route_retry {s : State} (hr : s.answer_is_relevant = false)
    (hi : s.iteration < effMax s) :
    route_after_evaluation s = "query_rewriter" := by
  have : ¬ s.iteration ≥ effMax s := by omega
  simp [route_after_evaluation, hr, this]

/-- With enough fuel for the remaining allowed passes, the loop result is
done: an exception, or a state on which the route has decided end. -/
lemma runLoop_done (oracle : Nat → PassOracle) :
    ∀ fuel s, effMax s ≤ s.iteration + fuel → isDone (runLoop oracle fuel s) := by
  intro fuel
  induction fuel with
  | zero =>
    intro s h
    simpa [runLoop, isDone] using route_end_of_ge (by omega)
  | succ fuel ih =>
    intro s h
    unfold runLoop
    rcases hp : runPass (oracle s.iteration) s with e | s'
    · simp [hp, isDone, Bind.bind, Except.bind]
    · obtain ⟨hi, hm, _, _, _, _⟩ := runPass_inv hp
      by_cases hend : route_after_evaluation s' = "end"
      · simp [hp, hend, isDone, Bind.bind, Except.bind, pure, Except.pure]
      · simp only [hp, hend, Bind.bind, Except.bind, if_neg hend]
        exact ih s' (by rw [effMax_congr hm, hi]; omega)

/-- If the loop starts strictly below the bound and returns a state, that
state is within the bound and keeps max_iterations, error and
original_query of the start state. -/
lemma runLoop_bound (oracle : Nat → PassOracle) :
    ∀ fuel s st, s.iteration < effMax s → runLoop oracle fuel s = Except.ok st →
      st.iteration ≤ effMax st ∧ st.max_iterations = s.max_iterations ∧
      st.error = s.error ∧ st.original_query = s.original_query := by
  intro fuel
  induction fuel with
  | zero =>
    intro s st hlt h
    simp only [runLoop, Except.ok.injEq] at h
    subst h
    exact ⟨by omega, rfl, rfl, rfl⟩
  | succ fuel ih =>
    intro s st hlt h
    unfold runLoop at h
    obtain ⟨s', hp, h⟩ := bindE_ok h
    obtain ⟨hi, hm, he, hq, _, _⟩ := runPass_inv hp
    by_cases hend : route_after_evaluation s' = "end"
    · rw [if_pos hend] at h
      obtain rfl : s' = st := by simpa [pure, Except.pure] using h
      refine ⟨?_, hm, he, hq⟩
      have hmx : effMax s' = effMax s := effMax_congr hm
      omega
    · rw [if_neg hend] at h
      have hlt' : s'.iteration < effMax s' := (route_ne_end hend).2
      obtain ⟨b1, b2, b3, b4⟩ := ih s' st hlt' h
      exact ⟨b1, by rw [b2, hm], by rw [b3, he], by rw [b4, hq]⟩

/-- The pre-generate prefix of a pass cannot abort when its three LLM
calls succeed, whatever the retrieval outcomes were. -/
lemma pre_generate_ok_components (a b c d e : String) (ro : RetrieveOracle) (s : State) :
    ∃ st, pre_generate_state (okPass a b c d e ro) s = Except.ok st := by
  simp only [pre_generate_state, okPass, query_rewriter_node, needs_more_info_node,
    source_selector_node, Except.map, Bind.bind, Except.bind, pure, Except.pure]
  split
  · exact ⟨_, rfl⟩
  · exact ⟨_, rfl⟩

/-- A pass whose five LLM calls succeed returns a state carrying the
generated answer and the evaluator decision, with iteration bumped. -/
lemma runPass_ok_components (a b c d e : String) (ro : RetrieveOracle) (s : State) :
    ∃ st, runPass (okPass a b c d e ro) s = Except.ok st ∧
      st.answer = generate_answer d ∧ st.answer_is_relevant = evaluate_answer e ∧
      st.iteration = s.iteration + 1 := by
  obtain ⟨st3, h3⟩ := pre_generate_ok_components a b c d e ro s
  have hex : ∃ st, runPass (okPass a b c d e ro) s = Except.ok st := by
    unfold runPass
    rw [h3]
    exact ⟨_, rfl⟩
  obtain ⟨st, hst⟩ := hex
  obtain ⟨hi, _, _, _, hdec, dd, hdd, hans⟩ := runPass_inv hst
  have hdd2 : dd = d := by
    simp only [okPass, Except.ok.injEq] at hdd
    exact hdd.symm
  have hrel : st.answer_is_relevant = evaluate_answer e := by
    have : evalDecision (okPass a b c d e ro) = some (evaluate_answer e) := rfl
    rw [this] at hdec
    exact (Option.some.inj hdec).symm
  exact ⟨st, hst, by rw [hans, hdd2], hrel, hi⟩

/-- A pass whose five LLM calls succeed cannot abort, whatever the
retrieval outcomes were. -/
lemma runPass_total {o : PassOracle} (s : State) (hok : isOkAll o) :
    ∃ st, runPass o s = Except.ok st := by
  obtain ⟨⟨a, ha⟩, ⟨b, hb⟩, ⟨c, hc⟩, ⟨d, hd⟩, ⟨e, he⟩⟩ := hok
  rcases o with ⟨rw, ni, src, ro, gen, ev⟩
  simp only at ha hb hc hd he
  subst ha hb hc hd he
  obtain ⟨st, h, _⟩ := runPass_ok_components a b c d e ro s
  exact ⟨st, h⟩

/-- The needs-info route picks the source selector exactly when the flag
was set. -/
lemma route_needs_iff (s : State) :
    route_after_needs_info s = "source_selector" ↔ s.needs_retrieval = true := by
  cases hn : s.needs_retrieval <;> simp [route_after_needs_info, hn]

/-- If the loop keeps rejecting for m passes, every pass succeeds, and the
evaluator accepts at pass m while still strictly under the bound, the loop
returns the pass-m state: iteration grew by m plus one and the answer was
marked relevant. -/
lemma runLoop_first_yes :
    ∀ (m : Nat) (oracle : Nat → PassOracle) (fuel : Nat) (s : State),
      (∀ j, j ≤ m → isOkAll (oracle (s.iteration + j))) →
      (∀ j, j < m → evalDecision (oracle (s.iteration + j)) = some false) →
      evalDecision (oracle (s.iteration + m)) = some true →
      s.iteration + m < effMax s →
      m < fuel →
      ∃ st, runLoop oracle fuel s = Except.ok st ∧
        st.iteration = s.iteration + m + 1 ∧ st.answer_is_relevant = true := by
  intro m
  induction m with
  | zero =>
    intro oracle fuel s hok hno hyes hlt hfuel
    obtain ⟨fuel, rfl⟩ : ∃ f, fuel = f + 1 := ⟨fuel - 1, by omega⟩
    obtain ⟨st, hst⟩ := runPass_total s (hok 0 (by omega))
    simp only [Nat.add_zero] at hst
    obtain ⟨hi, hm, herr, hq, hd, _⟩ := runPass_inv hst
    simp only [Nat.add_zero] at hyes
    have hrel : st.answer_is_relevant = true := by
      rw [hd] at hyes
      exact Option.some.inj hyes
    refine ⟨st, ?_, by omega, hrel⟩
    unfold runLoop
    rw [hst]
    simp [Bind.bind, Except.bind, route_end_of_relevant hrel, pure, Except.pure]
  | succ m ih =>
    intro oracle fuel s hok hno hyes hlt hfuel
    obtain ⟨fuel, rfl⟩ : ∃ f, fuel = f + 1 := ⟨fuel - 1, by omega⟩
    obtain ⟨st1, hst1⟩ := runPass_total s (hok 0 (by omega))
    simp only [Nat.add_zero] at hst1
    obtain ⟨hi, hm, herr, hq, hd, _⟩ := runPass_inv hst1
    have h0 := hno 0 (by omega)
    simp only [Nat.add_zero] at h0
    have hrel1 : st1.answer_is_relevant = false := by
      rw [hd] at h0
      exact Option.some.inj h0
    have hmx : effMax st1 = effMax s := effMax_congr hm
    have hlt1 : st1.iteration < effMax st1 := by omega
    have hroute : route_after_evaluation st1 = "query_rewriter" := route_retry hrel1 hlt1
    have hne : route_after_evaluation st1 ≠ "end" := by rw [hroute]; decide
    have hok1 : ∀ j, j ≤ m → isOkAll (oracle (st1.iteration + j)) := by
      intro j hj
      have hidx : st1.iteration + j = s.iteration + (j + 1) := by omega
      rw [hidx]
      exact hok (j + 1) (by omega)
    have hno1 : ∀ j, j < m → evalDecision (oracle (st1.iteration + j)) = some false := by
      intro j hj
      have hidx : st1.iteration + j = s.iteration + (j + 1) := by omega
      rw [hidx]
      exact hno (j + 1) (by omega)
    have hyes1 : evalDecision (oracle (st1.iteration + m)) = some true := by
      have hidx : st1.iteration + m = s.iteration + (m + 1) := by omega
      rw [hidx]
      exact hyes
    have hlt2 : st1.iteration + m < effMax st1 := by omega
    obtain ⟨st, hloop, hit, hrel⟩ := ih oracle fuel st1 hok1 hno1 hyes1 hlt2 (by omega)
    refine ⟨st, ?_, by omega, hrel⟩
    unfold runLoop
    rw [hst1]
    simp only [Bind.bind, Except.bind, if_neg hne]
    exact hloop

/-- When the needs-retrieval flag of the pre-generate state is off, the
source selector and retriever were skipped: the selected source and the
retrieved context still hold their pass-entry values. -/
lemma pre_generate_skip {o : PassOracle} {s st : State}
    (h : pre_generate_state o s = Except.ok st) (hn : st.needs_retrieval = false) :
    st.selected_source = s.selected_source ∧ st.retrieved_context = s.retrieved_context := by
  unfold pre_generate_state at h
  obtain ⟨s1, h1, h⟩ := bindE_ok h
  obtain ⟨a, ha, rfl⟩ := map_ok (x := o.rewriteResp) h1
  obtain ⟨s2, h2, h⟩ := bindE_ok h
  obtain ⟨b, hb, rfl⟩ := map_ok (x := o.needsInfoResp) h2
  split at h
  · rename_i hcond
    obtain ⟨s3, h3, h⟩ := bindE_ok h
    obtain ⟨c, hc, rfl⟩ := map_ok (x := o.sourceResp) h3
    simp only [pure, Except.pure, Except.ok.injEq] at h
    subst h
    have htrue := (route_needs_iff _).mp hcond
    simp only [retriever_node] at hn
    simp only at hn htrue
    rw [htrue] at hn
    cases hn
  · simp only [pure, Except.pure, Except.ok.injEq] at h
    subst h
    simp

/-- When the needs-retrieval flag of the pre-generate state is on, the
source selector ran (its LLM call succeeded), the stored source is the
coerced selection, and the retrieved context is the retriever result for
that source. -/
lemma pre_generate_retrieval {o : PassOracle} {s st : State}
    (h : pre_generate_state o s = Except.ok st) (hn : st.needs_retrieval = true) :
    ∃ c, o.sourceResp = Except.ok c ∧ st.selected_source = some (select_source c) ∧
      st.retrieved_context = retrieval_context o.retrieve (some (select_source c)) := by
  unfold pre_generate_state at h
  obtain ⟨s1, h1, h⟩ := bindE_ok h
  obtain ⟨a, ha, rfl⟩ := map_ok (x := o.rewriteResp) h1
  obtain ⟨s2, h2, h⟩ := bindE_ok h
  obtain ⟨b, hb, rfl⟩ := map_ok (x := o.needsInfoResp) h2
  split at h
  · rename_i hcond
    obtain ⟨s3, h3, h⟩ := bindE_ok h
    obtain ⟨c, hc, rfl⟩ := map_ok (x := o.sourceResp) h3
    simp only [pure, Except.pure, Except.ok.injEq] at h
    subst h
    exact ⟨c, hc, by simp [retriever_node], by simp [retriever_node]⟩
  · rename_i hcond
    simp only [pure, Except.pure, Except.ok.injEq] at h
    subst h
    exact absurd ((route_needs_iff _).mpr hn) hcond

/-- A pass that raises makes the loop abort with that exception. -/
lemma runLoop_error_of_runPass {oracle : Nat → PassOracle} {s : State} {e : String}
    (fuel : Nat) (h : runPass (oracle s.iteration) s = Except.error e) :
    runLoop oracle (fuel + 1) s = Except.error e := by
  unfold runLoop
  rw [h]
  rfl

/-- The sliding window is the identity on logs within the bound. -/
lemma window_short {log : List Message} {N : Nat} (h : log.length ≤ N) :
    filter_messages_sliding_window log (some N) = log := by
  by_cases hnil : log = []
  · subst hnil
    simp [filter_messages_sliding_window]
  · simp [filter_messages_sliding_window, hnil, h]

/-- On logs longer than the bound, the sliding window drops the oldest
entries, keeping exactly the last N. -/
lemma window_long {log : List Message} {N : Nat} (h1 : 1 ≤ N) (h2 : N < log.length) :
    filter_messages_sliding_window log (some N) = log.drop (log.length - N) ∧
    (filter_messages_sliding_window log (some N)).length = N := by
  have hnil : log ≠ [] := by
    intro hh
    subst hh
    simp at h2
  have hnle : ¬ log.length ≤ N := by omega
  have hN0 : ¬ N = 0 := by omega
  constructor
  · simp [filter_messages_sliding_window, pyTakeLast, hnil, hnle, hN0]
  · simp [filter_messages_sliding_window, pyTakeLast, hnil, hnle, hN0, List.length_drop]
    omega

end AgenticRag

namespace AgenticRag

/-- C9: for every message log and bound N at least 1, the sliding window
is the identity when the log fits the bound (including the empty log),
otherwise returns exactly the last N entries in original order, and is
idempotent.  The embedding is pure, so the input log is never mutated. -/
theorem sliding_window_spec (log : List Message) (N : Nat) (h : 1 ≤ N) :
    (log.length ≤ N → filter_messages_sliding_window log (some N) = log) ∧
    (N < log.length →
      filter_messages_sliding_window log (some N) = (log.reverse.take N).reverse ∧
      (filter_messages_sliding_window log (some N)).length = N) ∧
    filter_messages_sliding_window (filter_messages_sliding_window log (some N)) (some N)
      = filter_messages_sliding_window log (some N) := by
  refine ⟨fun hle => window_short hle, ?_, ?_⟩
  · intro hlt
    obtain ⟨he, hlen⟩ := window_long h hlt
    refine ⟨?_, hlen⟩
    rw [he, List.take_reverse, List.reverse_reverse]
  · by_cases hle : log.length ≤ N
    · rw [window_short hle]
      exact window_short hle
    · have hlt : N < log.length := by omega
      rw [(window_long h hlt).1]
      exact window_short (by simp [List.length_drop]; omega)

/-- C9 witness: a three-entry log with bound two keeps the last two
entries. -/
theorem sliding_window_witness :
    filter_messages_sliding_window
        [Message.human "a", Message.human "b", Message.human "c"] (some 2)
      = ([Message.human "a", Message.human "b", Message.human "c"].reverse.take 2).reverse :=
  ((sliding_window_spec [Message.human "a", Message.human "b", Message.human "c"] 2
    (by decide)).2.1 (by decide)).1

/-- C10: when the selected source is tools_api, the retriever stores the
fixed tools listing, independent of the retrieval collaborators and of
everything else in the state (in particular of the query): no tool runs. -/
theorem tools_branch_constant (ro ro2 : RetrieveOracle) (s s2 : State)
    (h : s.selected_source = some SOURCE_TOOLS_API)
    (h2 : s2.selected_source = some SOURCE_TOOLS_API) :
    (retriever_node ro s).retrieved_context = "Available tools: calculator, datetime" ∧
    (retriever_node ro s).retrieved_context = (retriever_node ro2 s2).retrieved_context := by
  have hx : ∀ (ro3 : RetrieveOracle) (s3 : State),
      s3.selected_source = some SOURCE_TOOLS_API →
      (retriever_node ro3 s3).retrieved_context = "Available tools: calculator, datetime" := by
    intro ro3 s3 h3
    have hde : get_tools_info = "Available tools: calculator, datetime" := by decide
    have hne : some SOURCE_TOOLS_API ≠ some SOURCE_VECTOR_DB := by decide
    simp [retriever_node, retrieval_context, h3, hde, hne]
  exact ⟨hx ro s h, by rw [hx ro s h, hx ro2 s2 h2]⟩

/-- C10 witness: a concrete state selecting tools_api yields the constant
tools listing. -/
theorem tools_branch_witness :
    (retriever_node emptyRetrieve
        { initial_state "any question" with selected_source := some SOURCE_TOOLS_API
        }).retrieved_context = "Available tools: calculator, datetime" :=
  (tools_branch_constant emptyRetrieve emptyRetrieve
    { initial_state "any question" with selected_source := some SOURCE_TOOLS_API }
    { initial_state "any question" with selected_source := some SOURCE_TOOLS_API }
    rfl rfl).1

/-- C7: whatever string the source-selection LLM returns, the stored value
is one of the three declared sources, a response whose stripped lowercased
form is outside the set is coerced to vector_database, and the node stores
exactly the coerced value. -/
theorem selected_source_always_valid :
    (∀ resp, select_source resp = SOURCE_VECTOR_DB ∨ select_source resp = SOURCE_TOOLS_API ∨
      select_source resp = SOURCE_WEB_SEARCH) ∧
    (∀ resp, [SOURCE_VECTOR_DB, SOURCE_TOOLS_API, SOURCE_WEB_SEARCH].contains
        (pyLower (pyStrip resp)) = false → select_source resp = SOURCE_VECTOR_DB) ∧
    (∀ resp s st, source_selector_node (Except.ok resp) s = Except.ok st →
      st.selected_source = some (select_source resp)) := by
  refine ⟨?_, ?_, ?_⟩
  · intro resp
    simp only [select_source]
    split
    · rename_i hmem
      have hin : pyLower (pyStrip resp)
          ∈ [SOURCE_VECTOR_DB, SOURCE_TOOLS_API, SOURCE_WEB_SEARCH] := by
        simpa using hmem
      simpa using hin
    · simp
  · intro resp hfalse
    simp only [select_source]
    rw [if_neg (by rw [hfalse]; decide)]
  · intro resp s st h
    obtain ⟨a, ha, rfl⟩ := map_ok (x := Except.ok resp) h
    cases ha
    simp [select_source]

/-- C7 witness: an out-of-set response is coerced to vector_database. -/
theorem selected_source_witness :
    select_source "banana" = SOURCE_VECTOR_DB ∧ select_source " Web_Search " = SOURCE_WEB_SEARCH :=
  ⟨selected_source_always_valid.2.1 "banana" (by decide), by decide⟩

/-- C3 counterexample: the claim says a malformed classifier response maps
to needing retrieval; on the code, the malformed response maybe yields
false, skipping retrieval. -/
theorem malformed_needs_info_cx : check_needs_more_info "maybe" = false := by decide

/-- C3 amended: any classifier response whose stripped uppercased form is
not exactly YES (in particular every malformed response) makes
check_needs_more_info return false, and the needs-info route then skips
retrieval, going straight to the answer generator. -/
theorem malformed_needs_info_defaults_to_no_retrieval (resp : String) (s : State)
    (h : pyUpper (pyStrip resp) ≠ "YES") :
    check_needs_more_info resp = false ∧
    route_after_needs_info { s with needs_retrieval := check_needs_more_info resp }
      = "answer_generator" := by
  have hb : check_needs_more_info resp = false := by
    unfold check_needs_more_info
    exact beq_eq_false_iff_ne.mpr h
  exact ⟨hb, by simp [route_after_needs_info, hb]⟩

/-- C3 witness: a concrete malformed response skips retrieval. -/
theorem malformed_needs_info_witness :
    check_needs_more_info "maybe, it depends" = false ∧
    route_after_needs_info
      { initial_state "q" with needs_retrieval := check_needs_more_info "maybe, it depends" }
      = "answer_generator" :=
  malformed_needs_info_defaults_to_no_retrieval "maybe, it depends" (initial_state "q")
    (by decide)

/-- C4 counterexample: the claim says a failing rewrite LLM call does not
fail the run; on the code, the exception propagates and the whole run
aborts with it, never reaching the needs-info check. -/
theorem rewrite_failure_aborts_cx :
    run_agentic_rag oracleRewriteFails "What is 2 + 2?" = Except.error "LLM failure" := by
  rfl

/-- C4 amended: an LLM failure during QueryRewrite propagates out of the
node and aborts the run with that exception; there is no fallback to the
previous query in the canonical graph. -/
theorem rewrite_failure_propagates (oracle : Nat → PassOracle) (q e : String)
    (h : (oracle 0).rewriteResp = Except.error e) :
    run_agentic_rag oracle q = Except.error e := by
  have hpass : runPass (oracle 0) (initial_state q) = Except.error e := by
    unfold runPass pre_generate_state query_rewriter_node
    rw [h]
    rfl
  have hfuel : run_agentic_rag oracle q = runLoop oracle (2 + 1) (initial_state q) := rfl
  rw [hfuel]
  exact runLoop_error_of_runPass 2 hpass

/-- C4 witness: a concrete rewrite failure aborts the run with its
message. -/
theorem rewrite_failure_witness :
    run_agentic_rag oracleRewriteDown "any question" = Except.error "connection reset" :=
  rewrite_failure_propagates oracleRewriteDown "any question" "connection reset" rfl

/-- C5 counterexample: the claim says a fatal failure still yields a
well-formed result with the error field populated; on the code, the
exception escapes the engine and the API turns it into an HTTP 500
error response, not a result object. -/
theorem fatal_failure_http_500_cx :
    process_query oracleGenerateFails "What is 2 + 2?" "thread-1"
      = ApiResult.httpError 500 "Failed to process query: boom" := by
  rfl

/-- C5 amended: the caller receives either a well-formed response (when no
fatal failure occurred) or an HTTP 500 error carrying the exception
message; the state error field is never populated (a returning run always
has error = none), and a returning run keeps iteration within the bound. -/
theorem fatal_failure_yields_http_error (oracle : Nat → PassOracle) (q t : String) :
    ((∃ r, process_query oracle q t = ApiResult.response r) ∨
      (∃ e, process_query oracle q t
        = ApiResult.httpError 500 ("Failed to process query: " ++ e))) ∧
    (∀ st, run_agentic_rag oracle q = Except.ok st →
      st.error = none ∧ st.iteration ≤ effMax st) := by
  constructor
  · unfold process_query
    rcases h : run_agentic_rag oracle q with e | st
    · exact Or.inr ⟨e, rfl⟩
    · exact Or.inl ⟨_, rfl⟩
  · intro st h
    obtain ⟨b1, _, b3, _⟩ := runLoop_bound oracle (effMax (initial_state q))
      (initial_state q) st (by exact Nat.succ_pos 2) h
    exact ⟨by rw [b3]; rfl, b1⟩

/-- C5 witness: a fully successful run returns with the error field still
none. -/
theorem fatal_failure_witness :
    (run_agentic_rag oracleAllOk "What is 2 + 2?").map State.error = Except.ok none := by
  obtain ⟨st, hst⟩ : ∃ st, run_agentic_rag oracleAllOk "What is 2 + 2?" = Except.ok st :=
    ⟨_, rfl⟩
  have h := ((fatal_failure_yields_http_error oracleAllOk "What is 2 + 2?" "t").2 st hst).1
  rw [hst]
  simp [Except.map, h]

/-- C6: a degraded Retrieve never aborts the run: an exception from the
vector or web collaborator is caught and stored as an explanatory string,
an empty vector result is stored as the no-documents message, and a pass
whose LLM calls succeed always reaches the generator and returns its
answer, whatever the retrieval outcome was. -/
theorem retrieval_degradation_nonfatal :
    (∀ (ro : RetrieveOracle) (s : State) (e : String),
      s.selected_source = some SOURCE_VECTOR_DB → ro.vectorResult = Except.error e →
      (retriever_node ro s).retrieved_context = "Error during retrieval: " ++ e) ∧
    (∀ (ro : RetrieveOracle) (s : State) (e : String),
      s.selected_source = some SOURCE_WEB_SEARCH → ro.webResult = Except.error e →
      (retriever_node ro s).retrieved_context = "Error during retrieval: " ++ e) ∧
    (∀ (ro : RetrieveOracle) (s : State),
      s.selected_source = some SOURCE_VECTOR_DB → ro.vectorResult = Except.ok [] →
      (retriever_node ro s).retrieved_context = "No relevant documents found.") ∧
    (∀ (ro : RetrieveOracle) (a b c d e : String) (s : State),
      ∃ st, runPass (okPass a b c d e ro) s = Except.ok st ∧
        st.answer = generate_answer d) := by
  have hvw : some SOURCE_WEB_SEARCH ≠ some SOURCE_VECTOR_DB := by decide
  have htw : some SOURCE_WEB_SEARCH ≠ some SOURCE_TOOLS_API := by decide
  refine ⟨?_, ?_, ?_, ?_⟩
  · intro ro s e h he
    simp [retriever_node, retrieval_context, h, he]
  · intro ro s e h he
    simp [retriever_node, retrieval_context, h, he, hvw, htw]
  · intro ro s h he
    simp [retriever_node, retrieval_context, h, he, format_documents]
  · intro ro a b c d e s
    obtain ⟨st, hst, hans, _, _⟩ := runPass_ok_components a b c d e ro s
    exact ⟨st, hst, hans⟩

/-- C6 witness: a concrete vector-store exception and a concrete empty
result both degrade into the documented context strings. -/
theorem retrieval_degradation_witness :
    (retriever_node
        { vectorResult := Except.error "connection refused", webResult := Except.ok "" }
        { initial_state "q" with selected_source := some SOURCE_VECTOR_DB
        }).retrieved_context = "Error during retrieval: connection refused" ∧
    (retriever_node emptyRetrieve
        { initial_state "q" with selected_source := some SOURCE_VECTOR_DB
        }).retrieved_context = "No relevant documents found." :=
  ⟨retrieval_degradation_nonfatal.1 _ _ "connection refused" rfl rfl,
   retrieval_degradation_nonfatal.2.2.1 _ _ rfl rfl⟩

/-- C8 counterexample: the claim says the skipped retrieval fields remain
empty whenever the needs-info check says no; on a retry pass the fields
keep their values from the earlier retrieval pass: here the generator
runs with needs_retrieval false but a non-empty retrieved context and a
set source, and the final run state shows the same. -/
theorem stale_retrieval_fields_cx :
    stalePreGenerate.map State.needs_retrieval = Except.ok false ∧
    stalePreGenerate.map State.retrieved_context = Except.ok "No relevant documents found." ∧
    stalePreGenerate.map State.selected_source = Except.ok (some SOURCE_VECTOR_DB) ∧
    (run_agentic_rag oracleStale "What is 2 + 2?").map State.needs_retrieval
      = Except.ok false ∧
    (run_agentic_rag oracleStale "What is 2 + 2?").map State.retrieved_context
      = Except.ok "No relevant documents found." := by
  refine ⟨rfl, rfl, rfl, rfl, rfl⟩

/-- C8 amended: on each pass, needs_retrieval = false skips SourceSelect
and Retrieve, so the selected source and retrieved context keep their
pass-entry values (empty on a fresh first pass, stale on a retry pass);
needs_retrieval = true populates both before the generator runs.  On the
spec scenario (fresh run, no retrieval needed) both remain empty and the
answer is non-empty. -/
theorem skip_and_populate_retrieval_fields :
    (∀ o s st, pre_generate_state o s = Except.ok st → st.needs_retrieval = false →
      st.selected_source = s.selected_source ∧
      st.retrieved_context = s.retrieved_context) ∧
    (∀ o s st, pre_generate_state o s = Except.ok st → st.needs_retrieval = true →
      ∃ c, o.sourceResp = Except.ok c ∧ st.selected_source = some (select_source c) ∧
        st.retrieved_context = retrieval_context o.retrieve (some (select_source c))) ∧
    (run_agentic_rag oracleDirect "What is 2 + 2?").map State.selected_source
      = Except.ok none ∧
    (run_agentic_rag oracleDirect "What is 2 + 2?").map State.retrieved_context
      = Except.ok "" ∧
    (run_agentic_rag oracleDirect "What is 2 + 2?").map State.answer = Except.ok "4" ∧
    (run_agentic_rag oracleDirect "What is 2 + 2?").map State.needs_retrieval
      = Except.ok false := by
  exact ⟨fun o s st h hn => pre_generate_skip h hn,
    fun o s st h hn => pre_generate_retrieval h hn, rfl, rfl, rfl, rfl⟩

/-- C8 witness: the concrete direct-answer pass keeps the retrieval fields
at their initial empty values. -/
theorem skip_retrieval_witness :
    directPreState.selected_source = none ∧ directPreState.retrieved_context = "" := by
  have h := skip_and_populate_retrieval_fields.1 (oracleDirect 0)
    (initial_state "What is 2 + 2?") directPreState rfl rfl
  exact ⟨h.1.trans rfl, h.2.trans rfl⟩

/-- C1: for every collaborator behavior, the engine halts: the run result
is done within max_iterations passes; a returning run ends with the route
decided end and iteration between zero and the bound; the route forces end
once iteration reaches the bound; the evaluator node increments iteration
by exactly one, and no other node changes it. -/
theorem engine_terminates_within_bound (oracle : Nat → PassOracle) (q : String) :
    isDone (run_agentic_rag oracle q) ∧
    (∀ st, run_agentic_rag oracle q = Except.ok st →
      route_after_evaluation st = "end" ∧ 0 ≤ st.iteration ∧ st.iteration ≤ effMax st) ∧
    (∀ st : State, effMax st ≤ st.iteration → route_after_evaluation st = "end") ∧
    (∀ resp st st', answer_evaluator_node resp st = Except.ok st' →
      st'.iteration = st.iteration + 1) ∧
    (∀ resp st st', query_rewriter_node resp st = Except.ok st' →
      st'.iteration = st.iteration) ∧
    (∀ resp st st', needs_more_info_node resp st = Except.ok st' →
      st'.iteration = st.iteration) ∧
    (∀ resp st st', source_selector_node resp st = Except.ok st' →
      st'.iteration = st.iteration) ∧
    (∀ (ro : RetrieveOracle) (st : State), (retriever_node ro st).iteration = st.iteration) ∧
    (∀ resp st st', answer_generator_node resp st = Except.ok st' →
      st'.iteration = st.iteration) := by
  refine ⟨?_, ?_, fun st h => route_end_of_ge h, ?_, ?_, ?_, ?_, fun ro st => rfl, ?_⟩
  · exact runLoop_done oracle (effMax (initial_state q)) (initial_state q)
      (by exact Nat.le.refl)
  · intro st h
    have hd : isDone (run_agentic_rag oracle q) :=
      runLoop_done oracle (effMax (initial_state q)) (initial_state q)
        (by exact Nat.le.refl)
    rw [h] at hd
    obtain ⟨b1, _, _, _⟩ := runLoop_bound oracle (effMax (initial_state q))
      (initial_state q) st (by exact Nat.succ_pos 2) h
    exact ⟨by simpa [isDone] using hd, Nat.zero_le _, b1⟩
  · intro resp st st' h
    obtain ⟨a, ha, rfl⟩ := map_ok (x := resp) h
    rfl
  · intro resp st st' h
    obtain ⟨a, ha, rfl⟩ := map_ok (x := resp) h
    rfl
  · intro resp st st' h
    obtain ⟨a, ha, rfl⟩ := map_ok (x := resp) h
    rfl
  · intro resp st st' h
    obtain ⟨a, ha, rfl⟩ := map_ok (x := resp) h
    rfl
  · intro resp st st' h
    obtain ⟨a, ha, rfl⟩ := map_ok (x := resp) h
    rfl

/-- C1 witness: a concrete run is done after a single accepted pass. -/
theorem engine_terminates_witness :
    isDone (run_agentic_rag oracleAllYes "What is 2 + 2?") ∧
    (run_agentic_rag oracleAllYes "What is 2 + 2?").map State.iteration = Except.ok 1 :=
  ⟨(engine_terminates_within_bound oracleAllYes "What is 2 + 2?").1, rfl⟩

/-- C2: the post-evaluation route is end exactly when the answer is
relevant or iteration has reached the bound, and otherwise returns to the
query rewriter; when the evaluator first accepts at pass i below the
bound, the run halts at iteration i plus one with the answer marked
relevant; with the evaluator always rejecting, the run performs exactly
max_iterations full cycles and terminates unaccepted. -/
theorem evaluation_routing_and_halting (oracle : Nat → PassOracle) (q : String) (i : Nat)
    (hok : ∀ j, j ≤ i → isOkAll (oracle j))
    (hno : ∀ j, j < i → evalDecision (oracle j) = some false)
    (hyes : evalDecision (oracle i) = some true)
    (hi : i < settings_max_iterations) :
    (∀ s : State, route_after_evaluation s = "end" ↔
      (s.answer_is_relevant = true ∨ effMax s ≤ s.iteration)) ∧
    (∀ s : State, route_after_evaluation s = "end" ∨
      route_after_evaluation s = "query_rewriter") ∧
    (∃ st, run_agentic_rag oracle q = Except.ok st ∧
      st.iteration = i + 1 ∧ st.answer_is_relevant = true) ∧
    (∀ q2, (run_agentic_rag oracleAlwaysNo q2).map State.iteration
        = Except.ok settings_max_iterations ∧
      (run_agentic_rag oracleAlwaysNo q2).map State.answer_is_relevant
        = Except.ok false) := by
  refine ⟨?_, ?_, ?_, fun q2 => ⟨rfl, rfl⟩⟩
  · intro s
    constructor
    · intro h
      by_contra hc
      push_neg at hc
      obtain ⟨h1, h2⟩ := hc
      have h1b : s.answer_is_relevant = false := by
        cases hv : s.answer_is_relevant
        · rfl
        · exact absurd hv h1
      rw [route_retry h1b (by omega)] at h
      exact absurd h (by decide)
    · intro h
      rcases h with h | h
      · exact route_end_of_relevant h
      · exact route_end_of_ge h
  · intro s
    by_cases hend : route_after_evaluation s = "end"
    · exact Or.inl hend
    · exact Or.inr (route_retry (route_ne_end hend).1 (route_ne_end hend).2)
  · have h0 : (initial_state q).iteration = 0 := rfl
    have hm : effMax (initial_state q) = settings_max_iterations := rfl
    have hrun := runLoop_first_yes i oracle (effMax (initial_state q)) (initial_state q)
      (by intro j hj; simpa [h0] using hok j hj)
      (by intro j hj; simpa [h0] using hno j hj)
      (by simpa [h0] using hyes)
      (by simp only [h0, hm]; omega)
      (by rw [hm]; exact hi)
    obtain ⟨st, hloop, hit, hrel⟩ := hrun
    refine ⟨st, hloop, ?_, hrel⟩
    simpa [h0] using hit

/-- C2 witness: with the evaluator rejecting the first pass and accepting
the second, the run halts at iteration two with the answer accepted. -/
theorem evaluation_routing_witness :
    (run_agentic_rag oracleSecondYes "What is 2 + 2?").map State.iteration = Except.ok 2 ∧
    (run_agentic_rag oracleSecondYes "What is 2 + 2?").map State.answer_is_relevant
      = Except.ok true := by
  have hok : ∀ j, j ≤ 1 → isOkAll (oracleSecondYes j) := by
    intro j hj
    by_cases h0 : j = 0
    · subst h0
      exact ⟨⟨_, rfl⟩, ⟨_, rfl⟩, ⟨_, rfl⟩, ⟨_, rfl⟩, ⟨_, rfl⟩⟩
    · have hne : oracleSecondYes j = okPass "rewritten again" "NO" "" "second answer" "YES" := by
        simp [oracleSecondYes, h0]
      rw [hne]
      exact ⟨⟨_, rfl⟩, ⟨_, rfl⟩, ⟨_, rfl⟩, ⟨_, rfl⟩, ⟨_, rfl⟩⟩
  have hno : ∀ j, j < 1 → evalDecision (oracleSecondYes j) = some false := by
    intro j hj
    interval_cases j
    decide
  obtain ⟨st, h1, h2, h3⟩ :=
    (evaluation_routing_and_halting oracleSecondYes "What is 2 + 2?" 1 hok hno
      (by decide) (by decide)).2.2.1
  rw [h1]
  exact ⟨by simp [Except.map, h2], by simp [Except.map, h3]⟩

end AgenticRag
